import Mathlib

/-!
Verification of the TayLaw frontend orchestration logic.

This file gives a shallow embedding of the state-manipulating functions of
the multi-document upload components (`MultiDocumentUpload.tsx`,
`DocumentUpload.tsx` — the latter bundles the `AgentMonitor` and
`ScrollableIssuesList` components) and proves properties of batch
submission, status polling, progress reporting, issue parsing and report
generation.

JavaScript string primitives (`trim`, `toLowerCase`, `split`, `slice`,
`includes`, truthiness of strings and of optional values) are modelled by
executable Lean functions over `String`/`List Char`, so that every
property can be evaluated on concrete inputs by `decide`.
-/

namespace TayLaw

/-! ## JavaScript string primitives -/

/-- JS `\s` whitespace class restricted to the ASCII range (the inputs the
component handles are ASCII; the Unicode spaces of `\s` never occur). -/
def jsWhitespace (c : Char) : Bool :=
  c = ' ' || c = '\t' || c = '\n' || c = '\r' || c = '\x0b' || c = '\x0c'

/-- JS `s.trim()`. -/
def jsTrim (s : String) : String :=
  String.mk (((s.data.dropWhile jsWhitespace).reverse.dropWhile jsWhitespace).reverse)

/-- ASCII lowercasing of a character, as JS `toLowerCase` acts on the
ASCII letters appearing in the analysis texts and keyword lists. -/
def toLowerChar (c : Char) : Char :=
  if 'A' ≤ c ∧ c ≤ 'Z' then Char.ofNat (c.toNat + 32) else c

/-- JS `s.toLowerCase()`. -/
def jsToLower (s : String) : String := String.mk (s.data.map toLowerChar)

/-- Does `needle` occur as a contiguous segment of the second list? -/
def containsSub (needle : List Char) : List Char → Bool
  | [] => needle.isEmpty
  | c :: rest => needle.isPrefixOf (c :: rest) || containsSub needle rest

/-- JS `hay.includes(needle)`. -/
def jsIncludes (hay needle : String) : Bool := containsSub needle.data hay.data

/-- Split a character list at every occurrence of `sep` (JS
`s.split(sep)` for a one-character separator). -/
def splitChar (sep : Char) : List Char → List (List Char)
  | [] => [[]]
  | c :: rest =>
    if c = sep then [] :: splitChar sep rest
    else
      match splitChar sep rest with
      | [] => [[c]]
      | piece :: pieces => (c :: piece) :: pieces

/-- JS `s.split(sep)` for a one-character separator. -/
def jsSplitOn (sep : Char) (s : String) : List String :=
  (splitChar sep s.data).map String.mk

/-- JS `c.repeat(n)` for a one-character string. -/
def repeatChar (c : Char) (n : Nat) : String := String.mk (List.replicate n c)

/-- JS `a || b` on an optional string, where both `undefined` and the
empty string are falsy. -/
def jsOrString (a : Option String) (b : String) : String :=
  match a with
  | none => b
  | some s => if s = "" then b else s

/-- JS truthiness of an optional boolean (`undefined` is falsy). -/
def jsTruthy (b : Option Bool) : Bool := b == some true

/-- JS `list.join(sep)`. -/
def jsJoin (sep : String) (l : List String) : String :=
  match l with
  | [] => ""
  | s :: rest => rest.foldl (fun acc t => acc ++ sep ++ t) s

/-! ## Data model (`MultiDocumentUpload.tsx`) -/

/-- The `status` field of the `DocumentFile` interface:
`'pending' | 'uploading' | 'analyzing' | 'completed' | 'failed'`. -/
inductive DocStatus
  | pending
  | uploading
  | analyzing
  | completed
  | failed
deriving DecidableEq, Repr

/-- `completed` and `failed` are the terminal document statuses. -/
def DocStatus.isTerminal : DocStatus → Bool
  | .completed => true
  | .failed => true
  | _ => false

/-- A browser `File` object; only the `name` field is read by the
orchestration logic under verification. -/
structure SrcFile where
  name : String
deriving DecidableEq, Repr

/-- The `DocumentFile` interface of `MultiDocumentUpload.tsx`. -/
structure DocumentFile where
  id : String
  file : SrcFile
  status : DocStatus
  analysis : Option String := none
  error : Option String := none
  progress : Nat
deriving DecidableEq, Repr

/-- One entry of the `documents` array of the `/api/batch-status`
response consumed by `pollBatchStatus`; `progress` is optional because the
source guards it with `statusDoc.progress || doc.progress`. -/
structure StatusDoc where
  filename : String
  status : DocStatus
  progress : Option Nat
deriving DecidableEq, Repr

/-- The `/api/batch-status` response body; the source reads it only
through `status.documents?...`, so the `documents` list is optional. -/
structure BatchStatusSnapshot where
  documents : Option (List StatusDoc)
deriving DecidableEq, Repr

/-- The per-file result status of the `BatchResult` interface:
`'completed' | 'failed'`. -/
inductive ResultStatus
  | completed
  | failed
deriving DecidableEq, Repr

/-- One entry of `BatchResult.results`. -/
structure DocResult where
  filename : String
  status : ResultStatus
  analysis : Option String := none
  error : Option String := none
deriving DecidableEq, Repr

/-- The `BatchResult` interface of `MultiDocumentUpload.tsx`. -/
structure BatchResult where
  batch_id : String
  total_documents : Nat
  completed : Nat
  failed : Nat
  unified_analysis : Option String := none
  source_documents : Option (List String) := none
  results : Option (List DocResult) := none
deriving DecidableEq, Repr

/-! ## Drop handling and prompt construction (`MultiDocumentUpload.tsx`) -/

/-- One element of `acceptedFiles.map((file, index) => ...)` in `onDrop`:
a fresh `DocumentFile` whose id interpolates `Date.now()` (passed here as
`now`) and the index within the drop. -/
def mkDroppedDoc (now : Nat) (index : Nat) (file : SrcFile) : DocumentFile :=
  { id := "doc_" ++ toString now ++ "_" ++ toString index
    file := file
    status := .pending
    progress := 0 }

/-- The `onDrop` callback: appends the accepted files of one drop to the
accumulated document list (`setDocuments(prev => [...prev, ...new])`).
The dropzone is configured with `maxFiles: 10`, which bounds a single
drop, but nothing bounds the accumulated list across drops. -/
def onDrop (now : Nat) (docs : List DocumentFile) (acceptedFiles : List SrcFile) :
    List DocumentFile :=
  docs ++ List.zipWith (mkDroppedDoc now) (List.range acceptedFiles.length) acceptedFiles

/-- The `PredefinedPrompt` interface. -/
structure PredefinedPrompt where
  id : String
  name : String
  description : String
  template : String
  version : String
deriving DecidableEq, Repr

/-- The `predefinedPrompts` array of `MultiDocumentUpload`. -/
def predefinedPrompts : List PredefinedPrompt :=
  [ { id := "red-flags-review"
      name := "Red Flags Review"
      description := "Automated contract risk assessment and compliance issue identification with evidence-based findings"
      template := "Please perform a comprehensive red flags review on this contract, identifying potential legal risks, compliance issues, and problematic clauses. Focus on liability limitations, termination conditions, payment terms, intellectual property clauses, indemnification provisions, and any unusual or potentially problematic terms. Provide specific evidence from the contract text for each identified risk."
      version := "1.0" }
  , { id := "review-against-base"
      name := "Review Against Base & Summarize Changes"
      description := "Compare contract versions and highlight modifications with impact analysis"
      template := "Compare this contract against standard templates or previous versions to identify all changes and modifications. Highlight additions, deletions, and alterations. Assess the business impact and legal risk of each change. Summarize departures from standard terms and flag any modifications that require special attention during review."
      version := "1.0" }
  , { id := "negotiation-support"
      name := "Negotiation Support"
      description := "Help draft responses, track departures from standard terms, and analyze negotiation positions"
      template := "Analyze this contract for negotiation support. Identify unfavorable terms, track departures from standard positions, and suggest negotiation strategies. Highlight key terms that should be challenged, modified, or accepted. Provide recommendations for response drafting and position strength assessment on critical clauses."
      version := "1.0" }
  , { id := "custom"
      name := "Custom Analysis"
      description := "Create your own analysis instructions for specialized use cases"
      template := ""
      version := "1.0" } ]

/-- The `basePrompt` binding of `getFinalPrompt`:
`selectedPromptId === 'custom' ? customPrompt : selectedPrompt?.template || ''`. -/
def basePromptOf (selectedPromptId customPrompt : String) : String :=
  let selectedPrompt := predefinedPrompts.find? (fun p => p.id == selectedPromptId)
  if selectedPromptId == "custom" then customPrompt
  else jsOrString (selectedPrompt.map (·.template)) ""

/-- `getFinalPrompt`: the base prompt, with the user context appended
after an `Additional Context:` marker when its trim is truthy. -/
def getFinalPrompt (selectedPromptId customPrompt userContext : String) : String :=
  let basePrompt := basePromptOf selectedPromptId customPrompt
  if jsTrim userContext != "" then
    basePrompt ++ "\n\nAdditional Context: " ++ userContext
  else basePrompt

/-- The `onChange` handler of the business-context textarea:
`setUserContext(e.target.value.slice(0, 500))`. -/
def userContextOnChange (value : String) : String :=
  String.mk (value.data.take 500)

/-! ## Submission (`handleSubmit` of `MultiDocumentUpload.tsx`) -/

/-- The guard at the top of `handleSubmit`:
`if (documents.length === 0 || !finalPrompt.trim()) return`.
Returns `true` when the submission proceeds (an analysis request is
sent); apart from this guard, `handleSubmit` performs no validation of
the accumulated document count. -/
def handleSubmitSends (docs : List DocumentFile) (finalPrompt : String) : Bool :=
  !(docs.length == 0) && !(jsTrim finalPrompt == "")

/-- Files appended to the form data of the `/api/analyze-multiple`
request: `documents.forEach(doc => formData.append('files', doc.file))`. -/
def submittedFiles (docs : List DocumentFile) : List SrcFile :=
  docs.map (·.file)

/-- The per-document function of the first `setDocuments` of
`handleSubmit`: `{ ...doc, status: 'uploading', progress: 10 }`, applied
unconditionally to every document. -/
def submitResetDoc (d : DocumentFile) : DocumentFile :=
  { d with status := .uploading, progress := 10 }

/-- The first `setDocuments` of `handleSubmit`: every accumulated
document — terminal or not — is reset to `uploading` at progress 10. -/
def handleSubmitStart (docs : List DocumentFile) : List DocumentFile :=
  docs.map submitResetDoc

/-- The second `setDocuments` of `handleSubmit`:
`{ ...doc, status: 'analyzing', progress: 30 }`. -/
def submitAnalyzingDoc (d : DocumentFile) : DocumentFile :=
  { d with status := .analyzing, progress := 30 }

/-! ## Status polling (`pollBatchStatus` of `MultiDocumentUpload.tsx`) -/

/-- `status.documents?.find((d) => d.filename === doc.file.name)`. -/
def findStatusDoc (status : BatchStatusSnapshot) (d : DocumentFile) : Option StatusDoc :=
  status.documents.bind (fun ds => ds.find? (fun sd => sd.filename == d.file.name))

/-- The per-document update of the `setDocuments` inside
`pollBatchStatus`: when a status entry with the document's filename is
found, status and progress are taken from it (`statusDoc.progress ||
doc.progress` keeps the old progress on a missing or zero report);
otherwise the document is returned unchanged. -/
def updateDocFromStatus (status : BatchStatusSnapshot) (d : DocumentFile) : DocumentFile :=
  match findStatusDoc status d with
  | some sd =>
    { d with
      status := sd.status
      progress :=
        match sd.progress with
        | some p => if p == 0 then d.progress else p
        | none => d.progress }
  | none => d

/-- `const isComplete = status.documents?.every(d => d.status ===
'completed' || d.status === 'failed')`; `none` models the JS
`undefined` produced by the optional chain. -/
def batchIsComplete (status : BatchStatusSnapshot) : Option Bool :=
  status.documents.map (fun ds => ds.all (fun d => d.status == .completed || d.status == .failed))

/-- The observable outcome of one `pollBatchStatus` call: the returned
boolean, whether `/api/batch-results` was fetched, the updated document
list, the batch result stored (if any) and whether `setIsProcessing(false)`
ran. -/
structure PollResult where
  shouldContinue : Bool
  fetchedResults : Bool
  docs : List DocumentFile
  batchResult : Option BatchResult
  processingStopped : Bool
deriving DecidableEq, Repr

/-- `pollBatchStatus`. `resp = none` models both a thrown fetch error and
a non-ok `/api/batch-status` response, which the source treats
identically: no state change and `return false`. `resultsOk` is the
`.ok` of the `/api/batch-results` fetch and `results` its body. -/
def pollBatchStatus (resp : Option BatchStatusSnapshot) (resultsOk : Bool)
    (results : BatchResult) (docs : List DocumentFile) : PollResult :=
  match resp with
  | none =>
    { shouldContinue := false, fetchedResults := false, docs := docs
      batchResult := none, processingStopped := false }
  | some status =>
    let newDocs := docs.map (updateDocFromStatus status)
    let isComplete := batchIsComplete status
    if jsTruthy isComplete then
      if resultsOk then
        { shouldContinue := false, fetchedResults := true, docs := newDocs
          batchResult := some results, processingStopped := true }
      else
        { shouldContinue := !(jsTruthy isComplete), fetchedResults := true, docs := newDocs
          batchResult := none, processingStopped := false }
    else
      { shouldContinue := !(jsTruthy isComplete), fetchedResults := false, docs := newDocs
        batchResult := none, processingStopped := false }

/-! ## The polling interval and its 5-minute timeout (`handleSubmit`) -/

/-- The frontend state touched by the polling loop started in
`handleSubmit`: whether the `setInterval` handle is still installed,
the `isProcessing` flag, the document list and the stored batch result. -/
structure PollingLoop where
  intervalActive : Bool
  isProcessing : Bool
  docs : List DocumentFile
  batchResult : Option BatchResult
deriving DecidableEq, Repr

/-- One firing of the polling interval: when the interval is still
installed, run `pollBatchStatus` and clear the interval if it returned
false; the second component records whether a status request was made. -/
def pollTick (resp : Option BatchStatusSnapshot) (resultsOk : Bool)
    (results : BatchResult) (s : PollingLoop) : PollingLoop × Bool :=
  if s.intervalActive then
    let r := pollBatchStatus resp resultsOk results s.docs
    ({ intervalActive := r.shouldContinue
       isProcessing := if r.processingStopped then false else s.isProcessing
       docs := r.docs
       batchResult := if r.batchResult.isSome then r.batchResult else s.batchResult }, true)
  else (s, false)

/-- The `setTimeout` callback armed for 300000 ms in `handleSubmit`:
`clearInterval(pollInterval); if (isProcessing) setIsProcessing(false)`.
`capturedIsProcessing` is the `isProcessing` value captured by the
closure at render time. The document list is not touched. -/
def onPollTimeout (capturedIsProcessing : Bool) (s : PollingLoop) : PollingLoop :=
  { s with
    intervalActive := false
    isProcessing := if capturedIsProcessing then false else s.isProcessing }

/-! ## Report generation (`downloadBatchReport` of `MultiDocumentUpload.tsx`) -/

/-- `batchResult.unified_analysis || batchResult.results?.[0]?.analysis
|| 'Analysis completed successfully.'`. -/
def analysisContentOf (b : BatchResult) : String :=
  jsOrString b.unified_analysis
    (jsOrString ((b.results.bind List.head?).bind DocResult.analysis)
      "Analysis completed successfully.")

/-- The report title, chosen by document count. -/
def reportTitle (b : BatchResult) : String :=
  if b.total_documents == 1 then "LEGAL DOCUMENT ANALYSIS REPORT"
  else "MULTI-DOCUMENT LEGAL ANALYSIS REPORT"

/-- The `reportContent` template literal of `downloadBatchReport`.
`dateStr` is `new Date().toLocaleDateString()`: the current date enters
the report text here and nowhere else. -/
def downloadReportContent (b : BatchResult) (dateStr : String) : String :=
  reportTitle b ++ "\n"
    ++ repeatChar '=' (reportTitle b).length ++ "\n\nAnalysis Date: " ++ dateStr ++ "\n"
    ++ (if b.total_documents > 1 then "Total Documents Analyzed: " ++ toString b.total_documents else "") ++ "\n"
    ++ (if b.completed > 0 then "Successfully Processed: " ++ toString b.completed else "") ++ "\n"
    ++ (if b.failed > 0 then "Failed: " ++ toString b.failed else "") ++ "\n"
    ++ (match b.source_documents with
        | some srcs => if srcs.length > 1 then "\nSource Documents: " ++ jsJoin ", " srcs else ""
        | none => "") ++ "\n\n"
    ++ analysisContentOf b ++ "\n\n"
    ++ repeatChar '=' 40 ++ "\nGenerated by TayLaw Legal AI Assistant\n"

/-! ## Workflow progress (`getStepProgress` of the `AgentMonitor` component) -/

/-- The `ParallelProcessingStatus` interface. `completion_percentage` is
an integral percentage here; only its comparison against the floor of 10
matters to the verified properties. -/
structure ParallelProcessingStatus where
  active : Bool
  total_chunks : Nat
  completed_chunks : Nat
  completion_percentage : Nat
deriving DecidableEq, Repr

/-- The component state read by `getStepProgress`: the `agentStates`
record (an association list keyed by agent name) and the parallel
processing status. -/
structure AgentMonitorState where
  agentStates : List (String × String)
  parallelStatus : ParallelProcessingStatus
deriving DecidableEq, Repr

/-- Record access `agentStates[name]`. -/
def recordGet (r : List (String × String)) (k : String) : Option String :=
  (r.find? (fun p => p.1 == k)).map (·.2)

/-- `agentStates[name] === 'completed'`. -/
def hasAgentCompleted (st : AgentMonitorState) (name : String) : Bool :=
  recordGet st.agentStates name == some "completed"

/-- `agentStates[name] === 'processing'`. -/
def agentIsProcessing (st : AgentMonitorState) (name : String) : Bool :=
  recordGet st.agentStates name == some "processing"

/-- The `parallelComplete` binding of `getStepProgress`:
`completed_chunks >= total_chunks && total_chunks > 0`. -/
def parallelComplete (st : AgentMonitorState) : Bool :=
  decide (st.parallelStatus.total_chunks ≤ st.parallelStatus.completed_chunks)
    && decide (0 < st.parallelStatus.total_chunks)

/-- `getStepProgress`: the displayed progress of one workflow step as a
function of the monitor state. -/
def getStepProgress (st : AgentMonitorState) (step : String) : Nat :=
  let hasDocumentParser := hasAgentCompleted st "Document Parser"
  let hasChunking := hasAgentCompleted st "Document Chunking Agent"
  let hasCrossRef := hasAgentCompleted st "Cross-Reference Agent"
  let hasCombination := hasAgentCompleted st "Results Combination Agent"
  let hasReport := hasAgentCompleted st "Report Generator"
  if step == "parsing" then
    if hasDocumentParser then 100
    else if st.agentStates.length > 0 then 50 else 0
  else if step == "chunking" then
    if !hasDocumentParser then 0
    else if hasChunking then 100
    else if agentIsProcessing st "Document Chunking Agent" then 50 else 10
  else if step == "analysis" then
    if !hasChunking then 0
    else if st.parallelStatus.total_chunks == 0 then 10
    else if parallelComplete st then 100
    else max 10 st.parallelStatus.completion_percentage
  else if step == "cross_ref" then
    if !(parallelComplete st) then 0
    else if hasCrossRef then 100
    else if agentIsProcessing st "Cross-Reference Agent" then 50 else 10
  else if step == "combination" then
    if !hasCrossRef then 0
    else if hasCombination then 100
    else if agentIsProcessing st "Results Combination Agent" then 50 else 10
  else if step == "report" then
    if !hasCombination then 0
    else if hasReport then 100
    else if agentIsProcessing st "Report Generator" then 50 else 10
  else 0

/-! ## Issue parsing (`parseIssuesFromAnalysis` of `ScrollableIssuesList`) -/

/-- The issue severities: `'high' | 'medium' | 'low'`. -/
inductive Severity
  | high
  | medium
  | low
deriving DecidableEq, Repr

/-- The `highKeywords` list of `getSeverity`. -/
def highKeywords : List String :=
  ["critical", "urgent", "severe", "major", "high risk", "dangerous", "liability", "terminate"]

/-- The `mediumKeywords` list of `getSeverity`. -/
def mediumKeywords : List String :=
  ["moderate", "medium", "concern", "issue", "problem", "review"]

/-- `getSeverity`: keyword scan over the lowercased section text. -/
def getSeverity (content : String) : Severity :=
  let lowerContent := jsToLower content
  if highKeywords.any (fun keyword => jsIncludes lowerContent keyword) then .high
  else if mediumKeywords.any (fun keyword => jsIncludes lowerContent keyword) then .medium
  else .low

/-- The lookahead of the section-splitting regex
`/\n\s*(?=\d+\.|•|-)/`: one or more digits followed by a dot, a bullet,
or a hyphen. -/
def sectionLookahead : List Char → Bool
  | [] => false
  | c :: rest => c == '•' || c == '-' || (c.isDigit && digitRunThenDot rest)
where
  /-- After an initial digit: skip further digits, then require `'.'`. -/
  digitRunThenDot : List Char → Bool
    | [] => false
    | c :: rest => if c.isDigit then digitRunThenDot rest else c == '.'

/-- Scanner for `text.split(/\n\s*(?=\d+\.|•|-)/)`: a separator is a
newline plus the following whitespace run, accepted when the first
non-whitespace character after it satisfies the lookahead (the lookahead
alternatives all start with non-whitespace, so the greedy `\s*` never
backtracks). The fuel argument dominates the input length, so it is
never exhausted on the initial call below. -/
def splitSectionsAux (fuel : Nat) (acc : List Char) (l : List Char) : List (List Char) :=
  match fuel with
  | 0 => [acc.reverse]
  | fuel + 1 =>
    match l with
    | [] => [acc.reverse]
    | c :: rest =>
      if c == '\n' then
        let afterWs := rest.dropWhile jsWhitespace
        if sectionLookahead afterWs then acc.reverse :: splitSectionsAux fuel [] afterWs
        else splitSectionsAux fuel (c :: acc) rest
      else splitSectionsAux fuel (c :: acc) rest

/-- `text.split(/\n\s*(?=\d+\.|•|-)/).filter(section => section.trim())`. -/
def splitSections (text : String) : List String :=
  ((splitSectionsAux (text.data.length + 1) [] text.data).map String.mk).filter
    (fun s => jsTrim s != "")

/-- `section.split('\n').map(line => line.trim()).filter(line => line)`. -/
def sectionLines (s : String) : List String :=
  ((jsSplitOn '\n' s).map jsTrim).filter (fun line => line != "")

/-- The `sections.forEach` loop of `parseIssuesFromAnalysis`, projected
to the `severity` field of the pushed issues: every section whose
trimmed line list is non-empty pushes exactly one issue, in section
order, with severity `getSeverity(section)`; the remaining issue fields
(title, clause, document, recommendation) affect neither the number nor
the order of the pushed issues. -/
def issuesLoop : List String → List Severity
  | [] => []
  | s :: rest =>
    if (sectionLines s).isEmpty then issuesLoop rest
    else getSeverity s :: issuesLoop rest

/-- The severity sequence of `parseIssuesFromAnalysis(text)`, in the
order the issues are pushed (and rendered by `issues.map` — the
component never reorders them). -/
def parseIssuesSeverities (text : String) : List Severity :=
  issuesLoop (splitSections text)

/-- Rank used to state the claimed high → medium → low output ordering. -/
def sevRank : Severity → Nat
  | .high => 0
  | .medium => 1
  | .low => 2

/-- Is a severity sequence ordered high → medium → low? -/
def sortedBySeverity : List Severity → Bool
  | [] => true
  | a :: rest => rest.all (fun b => decide (sevRank a ≤ sevRank b)) && sortedBySeverity rest

/-! ## Decomposition of the report around the date field -/

/-- Everything of the report text before the interpolated current date. -/
def reportHeaderBeforeDate (b : BatchResult) : String :=
  reportTitle b ++ "\n" ++ repeatChar '=' (reportTitle b).length ++ "\n\nAnalysis Date: "

/-- Everything of the report text after the interpolated current date. -/
def reportBodyAfterDate (b : BatchResult) : String :=
  "\n"
    ++ (if b.total_documents > 1 then "Total Documents Analyzed: " ++ toString b.total_documents else "") ++ "\n"
    ++ (if b.completed > 0 then "Successfully Processed: " ++ toString b.completed else "") ++ "\n"
    ++ (if b.failed > 0 then "Failed: " ++ toString b.failed else "") ++ "\n"
    ++ (match b.source_documents with
        | some srcs => if srcs.length > 1 then "\nSource Documents: " ++ jsJoin ", " srcs else ""
        | none => "") ++ "\n\n"
    ++ analysisContentOf b ++ "\n\n"
    ++ repeatChar '=' 40 ++ "\nGenerated by TayLaw Legal AI Assistant\n"

/-! ## Concrete inputs used by counterexamples and witnesses -/

/-- First drop: six accepted files (within the per-drop `maxFiles: 10`). -/
def c1DropA : List SrcFile :=
  [⟨"a1.pdf"⟩, ⟨"a2.pdf"⟩, ⟨"a3.pdf"⟩, ⟨"a4.pdf"⟩, ⟨"a5.pdf"⟩, ⟨"a6.pdf"⟩]

/-- Second drop: six more accepted files. -/
def c1DropB : List SrcFile :=
  [⟨"b1.pdf"⟩, ⟨"b2.pdf"⟩, ⟨"b3.pdf"⟩, ⟨"b4.pdf"⟩, ⟨"b5.pdf"⟩, ⟨"b6.pdf"⟩]

/-- The accumulated document list after the two drops: 12 documents. -/
def c1Docs : List DocumentFile := onDrop 1 (onDrop 0 [] c1DropA) c1DropB

/-- A document that has reached the terminal status `completed`. -/
def c4Doc : DocumentFile :=
  { id := "doc_0_0", file := ⟨"done.pdf"⟩, status := .completed
    analysis := some "All good", error := none, progress := 100 }

/-- A document still being analyzed when the 5-minute budget expires. -/
def c5Doc : DocumentFile :=
  { id := "doc_0_0", file := ⟨"slow.pdf"⟩, status := .analyzing
    analysis := none, error := none, progress := 30 }

/-- The polling-loop state at the moment the 5-minute timeout fires. -/
def c5State : PollingLoop :=
  { intervalActive := true, isProcessing := true, docs := [c5Doc], batchResult := none }

/-- An analysis text whose first numbered section carries no severity
keyword (low) while the second contains `critical` (high). -/
def c6Text : String := "1. Minor note about formatting\n2. Critical liability clause"

/-- A completed two-document batch result. -/
def c7Batch : BatchResult :=
  { batch_id := "batch-1", total_documents := 2, completed := 2, failed := 0
    unified_analysis := some "No issues found."
    source_documents := some ["a.pdf", "b.pdf"], results := none }

/-- An empty batch-results body, used where `pollBatchStatus` needs one. -/
def emptyBatchResult : BatchResult :=
  { batch_id := "", total_documents := 0, completed := 0, failed := 0 }

/-- A status snapshot reporting one document still `analyzing`. -/
def snapshotAnalyzing : BatchStatusSnapshot :=
  { documents := some [{ filename := "a.pdf", status := .analyzing, progress := some 50 }] }

/-- A status snapshot whose `documents` field is absent (`undefined`). -/
def snapshotNoDocuments : BatchStatusSnapshot := { documents := none }

/-- The proposition that a status response succeeded and reports at
least one non-terminal document — the right-hand side of claim C2's
"exactly when". -/
def snapshotReportsNonTerminal (resp : Option BatchStatusSnapshot) : Prop :=
  ∃ snap ds sd, resp = some snap ∧ snap.documents = some ds ∧ sd ∈ ds ∧
    sd.status ≠ DocStatus.completed ∧ sd.status ≠ DocStatus.failed

/-- A monitor state with all chunks done and cross-reference running. -/
def c3State : AgentMonitorState :=
  { agentStates :=
      [("Document Parser", "completed"), ("Document Chunking Agent", "completed"),
       ("Cross-Reference Agent", "processing")]
    parallelStatus :=
      { active := true, total_chunks := 4, completed_chunks := 4, completion_percentage := 100 } }

/-- A document with analysis and error fields set, named in
`snapshotAnalyzing`. -/
def c9Doc : DocumentFile :=
  { id := "doc_9", file := ⟨"a.pdf"⟩, status := .uploading
    analysis := some "previous analysis", error := some "previous error", progress := 10 }

/-! ## C1: batch size validation on submit -/

/-- C1: the claim says a batch of more than 10 accumulated documents is
refused by `handleSubmit` with a `too_many_documents` error and no
analysis request is sent. The code has no such check: after two drops of
six files each, `handleSubmit`'s only guard (non-empty list, non-blank
prompt) passes and all 12 files are appended to the analysis request. -/
theorem handleSubmit_sends_oversized_batch :
    c1Docs.length = 12 ∧
    handleSubmitSends c1Docs (getFinalPrompt "red-flags-review" "" "") = true ∧
    (submittedFiles c1Docs).length = 12 := by
  refine ⟨rfl, ?_, rfl⟩
  decide

/-! ## C4: terminal documents are not immutable -/

/-- C4 counterexample: a document whose status is the terminal
`completed` is reset to `uploading` by the first `setDocuments` of a new
`handleSubmit`, so terminal documents are mutated by re-submission. -/
theorem handleSubmit_resets_completed_doc :
    c4Doc.status = DocStatus.completed ∧
    (handleSubmitStart [c4Doc]).map DocumentFile.status = [DocStatus.uploading] ∧
    DocStatus.uploading ≠ DocStatus.completed := by
  decide

/-- C4 (amended): documents are not immutable once terminal — a new
`handleSubmit` resets every accumulated document, terminal or not, to
status `uploading` with progress 10, preserving its id, file, analysis
and error fields. -/
theorem handleSubmitStart_resets_every_document
    (docs : List DocumentFile) (d : DocumentFile) (h : d ∈ docs) :
    submitResetDoc d ∈ handleSubmitStart docs ∧
    (submitResetDoc d).status = DocStatus.uploading ∧
    (submitResetDoc d).progress = 10 ∧
    (submitResetDoc d).id = d.id ∧
    (submitResetDoc d).file = d.file ∧
    (submitResetDoc d).analysis = d.analysis ∧
    (submitResetDoc d).error = d.error :=
  ⟨List.mem_map_of_mem submitResetDoc h, rfl, rfl, rfl, rfl, rfl, rfl⟩

/-- Witness for `handleSubmitStart_resets_every_document` at the
completed document `c4Doc`. -/
theorem handleSubmitStart_resets_every_document_witness :
    submitResetDoc c4Doc ∈ handleSubmitStart [c4Doc] ∧
    (submitResetDoc c4Doc).status = DocStatus.uploading ∧
    (submitResetDoc c4Doc).progress = 10 ∧
    (submitResetDoc c4Doc).id = c4Doc.id ∧
    (submitResetDoc c4Doc).file = c4Doc.file ∧
    (submitResetDoc c4Doc).analysis = c4Doc.analysis ∧
    (submitResetDoc c4Doc).error = c4Doc.error :=
  handleSubmitStart_resets_every_document [c4Doc] c4Doc (by decide)

/-! ## C5: the 5-minute timeout does not fail the unfinished documents -/

/-- C5 counterexample: when the 300000 ms timeout fires, the handler
clears the interval and resets the processing flag but leaves the
document list untouched, so a document still `analyzing` is neither
marked `failed` nor given the reason "timeout". -/
theorem pollTimeout_leaves_nonterminal_document :
    c5Doc.status.isTerminal = false ∧
    (onPollTimeout true c5State).docs = [c5Doc] ∧
    ¬ (∀ d ∈ (onPollTimeout true c5State).docs,
        d.status = DocStatus.failed ∧ d.error = some "timeout") := by
  decide

/-- C5 (amended): on expiry of the 5-minute budget the timeout handler
clears the polling interval and, when the captured processing flag was
set, reports processing as stopped; it changes no document state — every
non-terminal document keeps its previous status with no failure reason
recorded. -/
theorem onPollTimeout_frame (b : Bool) (s : PollingLoop) :
    (onPollTimeout b s).docs = s.docs ∧
    (onPollTimeout b s).intervalActive = false ∧
    (onPollTimeout b s).batchResult = s.batchResult ∧
    (onPollTimeout b s).isProcessing = (if b then false else s.isProcessing) :=
  ⟨rfl, rfl, rfl, rfl⟩

/-! ## C6: the parsed issues list is not sorted by severity -/

/-- C6 counterexample: on an analysis text whose first section is
low-severity and whose second contains the high keyword `critical`, the
issues list comes out as low before high — not ordered high → low. -/
theorem parseIssues_not_sorted_by_severity :
    parseIssuesSeverities c6Text = [Severity.low, Severity.high] ∧
    sortedBySeverity (parseIssuesSeverities c6Text) = false := by
  decide

/-- C6 (amended): `parseIssuesFromAnalysis` performs no sorting — the
issues appear exactly in the order of their sections in the analysis
text (one per section with a non-empty trimmed line list), each
labelled with the severity derived from its own section's keywords. -/
theorem parseIssues_keeps_section_order (text : String) :
    parseIssuesSeverities text =
      ((splitSections text).filter (fun s => !(sectionLines s).isEmpty)).map getSeverity := by
  unfold parseIssuesSeverities
  induction splitSections text with
  | nil => rfl
  | cons s rest ih =>
    cases h : (sectionLines s).isEmpty <;> simp [issuesLoop, h, ih]

/-! ## C7: the report depends on the current date, not the batch alone -/

/-- C7 counterexample: the same batch result rendered on two different
dates produces different report text, so the report is not a function of
the batch result alone. -/
theorem downloadReport_differs_across_dates :
    downloadReportContent c7Batch "1/1/2025" ≠ downloadReportContent c7Batch "2/2/2025" := by
  decide

/-- C7 (amended): the report text is a deterministic function of the
batch result and the current date — the date enters only as the verbatim
`Analysis Date:` field between a prefix and a suffix each determined by
the batch result alone, so two runs on the same batch result and the
same date produce character-identical text. -/
theorem downloadReport_deterministic_in_batch_and_date (b : BatchResult) (d : String) :
    downloadReportContent b d = reportHeaderBeforeDate b ++ d ++ reportBodyAfterDate b := by
  simp only [downloadReportContent, reportHeaderBeforeDate, reportBodyAfterDate,
    String.append_assoc]

/-! ## C2: gating of the batch-results fetch by pollBatchStatus -/

/-- The truthiness of `isComplete` is equivalent to the snapshot
carrying a documents list in which every entry is terminal. -/
theorem jsTruthy_batchIsComplete_iff (status : BatchStatusSnapshot) :
    jsTruthy (batchIsComplete status) = true ↔
      ∃ ds, status.documents = some ds ∧
        ∀ sd ∈ ds, sd.status = DocStatus.completed ∨ sd.status = DocStatus.failed := by
  unfold jsTruthy batchIsComplete
  cases h : status.documents with
  | none => simp [h]
  | some ds => simp [h, List.all_eq_true]

/-- C2 counterexample: when the status request succeeds but the snapshot
has no `documents` list, the optional chain leaves `isComplete`
undefined, so `pollBatchStatus` returns `!isComplete = true` although no
reported document is non-terminal — the claimed "exactly when" fails. -/
theorem pollBatchStatus_continues_without_document_list :
    (pollBatchStatus (some snapshotNoDocuments) true emptyBatchResult []).shouldContinue = true ∧
    ¬ snapshotReportsNonTerminal (some snapshotNoDocuments) := by
  constructor
  · rfl
  · rintro ⟨snap, ds, sd, hsnap, hdocs, _hmem, _, _⟩
    injection hsnap with h
    subst h
    simp [snapshotNoDocuments] at hdocs

/-- C2 (amended): `pollBatchStatus` fetches the batch-results endpoint
only when the snapshot reports a documents list whose every entry is
terminal, and it returns true (continue polling) exactly when the status
request succeeded and the snapshot either lacks a documents list or
lists some non-terminal document. -/
theorem pollBatchStatus_results_gating (resp : Option BatchStatusSnapshot) (rOk : Bool)
    (res : BatchResult) (docs : List DocumentFile) :
    ((pollBatchStatus resp rOk res docs).fetchedResults = true →
      ∃ snap ds, resp = some snap ∧ snap.documents = some ds ∧
        ∀ sd ∈ ds, sd.status = DocStatus.completed ∨ sd.status = DocStatus.failed) ∧
    ((pollBatchStatus resp rOk res docs).shouldContinue = true ↔
      ∃ snap, resp = some snap ∧
        ¬ ∃ ds, snap.documents = some ds ∧
          ∀ sd ∈ ds, sd.status = DocStatus.completed ∨ sd.status = DocStatus.failed) := by
  cases resp with
  | none =>
    refine ⟨fun h => ?_, ?_⟩
    · simp [pollBatchStatus] at h
    · simp [pollBatchStatus]
  | some status =>
    have hiff := jsTruthy_batchIsComplete_iff status
    cases hc : jsTruthy (batchIsComplete status) with
    | true =>
      obtain ⟨ds, hds, hall⟩ := hiff.mp hc
      have hsc : (pollBatchStatus (some status) rOk res docs).shouldContinue = false := by
        cases rOk <;> simp [pollBatchStatus, hc]
      refine ⟨fun _ => ⟨status, ds, rfl, hds, hall⟩, ?_⟩
      rw [hsc]
      constructor
      · intro hfalse
        exact Bool.noConfusion hfalse
      · rintro ⟨snap, hsnap, hn⟩
        injection hsnap with hsnap
        subst hsnap
        exact absurd ⟨ds, hds, hall⟩ hn
    | false =>
      have hnot : ¬ ∃ ds, status.documents = some ds ∧
          ∀ sd ∈ ds, sd.status = DocStatus.completed ∨ sd.status = DocStatus.failed := by
        intro hex
        rw [← hiff] at hex
        rw [hc] at hex
        exact Bool.noConfusion hex
      have hsc : (pollBatchStatus (some status) rOk res docs).shouldContinue = true := by
        simp [pollBatchStatus, hc]
      have hfr : (pollBatchStatus (some status) rOk res docs).fetchedResults = false := by
        simp [pollBatchStatus, hc]
      refine ⟨fun h => ?_, ?_⟩
      · rw [hfr] at h
        exact Bool.noConfusion h
      · rw [hsc]
        exact ⟨fun _ => ⟨status, rfl, hnot⟩, fun _ => rfl⟩

/-- Witness for `pollBatchStatus_results_gating`: on a snapshot with one
document still `analyzing`, polling continues. -/
theorem pollBatchStatus_results_gating_witness :
    (pollBatchStatus (some snapshotAnalyzing) true emptyBatchResult []).shouldContinue = true := by
  refine (pollBatchStatus_results_gating (some snapshotAnalyzing) true emptyBatchResult []).2.mpr
    ⟨snapshotAnalyzing, rfl, ?_⟩
  rintro ⟨ds, hds, hall⟩
  have hd : snapshotAnalyzing.documents
      = some [{ filename := "a.pdf", status := DocStatus.analyzing, progress := some 50 }] := rfl
  rw [hd] at hds
  injection hds with hds
  subst hds
  rcases hall _ (List.mem_singleton.mpr rfl) with h | h <;> cases h

/-! ## C3: stage gating in the progress model -/

/-- C3: in `getStepProgress`, the cross-reference step reports nonzero
progress only behind the chunk join barrier (`completed_chunks >=
total_chunks` with `total_chunks > 0`), the results-combination step only
after the Cross-Reference Agent completed, and the report step only
after the Results Combination Agent completed. -/
theorem getStepProgress_stage_gating (st : AgentMonitorState) :
    (getStepProgress st "cross_ref" ≠ 0 →
      st.parallelStatus.total_chunks ≤ st.parallelStatus.completed_chunks ∧
      0 < st.parallelStatus.total_chunks) ∧
    (getStepProgress st "combination" ≠ 0 →
      recordGet st.agentStates "Cross-Reference Agent" = some "completed") ∧
    (getStepProgress st "report" ≠ 0 →
      recordGet st.agentStates "Results Combination Agent" = some "completed") := by
  refine ⟨fun h => ?_, fun h => ?_, fun h => ?_⟩
  · have hcr : getStepProgress st "cross_ref"
        = (if !(parallelComplete st) then 0
           else if hasAgentCompleted st "Cross-Reference Agent" then 100
           else if agentIsProcessing st "Cross-Reference Agent" then 50 else 10) := rfl
    rw [hcr] at h
    cases hp : parallelComplete st with
    | false => rw [hp] at h; simp at h
    | true =>
      have := hp
      simp only [parallelComplete, Bool.and_eq_true, decide_eq_true_eq] at this
      exact this
  · have hco : getStepProgress st "combination"
        = (if !(hasAgentCompleted st "Cross-Reference Agent") then 0
           else if hasAgentCompleted st "Results Combination Agent" then 100
           else if agentIsProcessing st "Results Combination Agent" then 50 else 10) := rfl
    rw [hco] at h
    cases hp : hasAgentCompleted st "Cross-Reference Agent" with
    | false => rw [hp] at h; simp at h
    | true =>
      have := hp
      simp only [hasAgentCompleted, beq_iff_eq] at this
      exact this
  · have hre : getStepProgress st "report"
        = (if !(hasAgentCompleted st "Results Combination Agent") then 0
           else if hasAgentCompleted st "Report Generator" then 100
           else if agentIsProcessing st "Report Generator" then 50 else 10) := rfl
    rw [hre] at h
    cases hp : hasAgentCompleted st "Results Combination Agent" with
    | false => rw [hp] at h; simp at h
    | true =>
      have := hp
      simp only [hasAgentCompleted, beq_iff_eq] at this
      exact this

/-- Witness for `getStepProgress_stage_gating`: in `c3State` the
cross-reference step shows nonzero progress, and indeed all 4 chunks are
done. -/
theorem getStepProgress_stage_gating_witness :
    c3State.parallelStatus.total_chunks ≤ c3State.parallelStatus.completed_chunks ∧
    0 < c3State.parallelStatus.total_chunks :=
  (getStepProgress_stage_gating c3State).1 (by decide)

/-! ## C8: a failed status request permanently stops polling -/

/-- C8: when a poll fails (thrown fetch or non-ok response, both modelled
by `resp = none`), `pollBatchStatus` returns false, so the tick clears
the interval; the documents and the stored batch result are unchanged,
and every later tick makes no request and changes nothing. -/
theorem pollTick_failure_stops_polling (s : PollingLoop) (h : s.intervalActive = true)
    (rOk : Bool) (res : BatchResult) :
    (pollTick none rOk res s).2 = true ∧
    (pollTick none rOk res s).1.docs = s.docs ∧
    (pollTick none rOk res s).1.intervalActive = false ∧
    (pollTick none rOk res s).1.isProcessing = s.isProcessing ∧
    (pollTick none rOk res s).1.batchResult = s.batchResult ∧
    ∀ (resp₂ : Option BatchStatusSnapshot) (rOk₂ : Bool) (res₂ : BatchResult),
      pollTick resp₂ rOk₂ res₂ (pollTick none rOk res s).1 = ((pollTick none rOk res s).1, false) := by
  have hp : pollTick none rOk res s
      = ({ intervalActive := false, isProcessing := s.isProcessing
           docs := s.docs, batchResult := s.batchResult }, true) := by
    simp [pollTick, pollBatchStatus, h]
  rw [hp]
  refine ⟨rfl, rfl, rfl, rfl, rfl, fun resp₂ rOk₂ res₂ => ?_⟩
  simp [pollTick]

/-- Witness for `pollTick_failure_stops_polling` at the concrete loop
state `c5State`. -/
theorem pollTick_failure_stops_polling_witness :
    (pollTick none true emptyBatchResult c5State).2 = true ∧
    (pollTick none true emptyBatchResult c5State).1.docs = c5State.docs ∧
    (pollTick none true emptyBatchResult c5State).1.intervalActive = false ∧
    (pollTick none true emptyBatchResult c5State).1.isProcessing = c5State.isProcessing ∧
    (pollTick none true emptyBatchResult c5State).1.batchResult = c5State.batchResult ∧
    ∀ (resp₂ : Option BatchStatusSnapshot) (rOk₂ : Bool) (res₂ : BatchResult),
      pollTick resp₂ rOk₂ res₂ (pollTick none true emptyBatchResult c5State).1
        = ((pollTick none true emptyBatchResult c5State).1, false) :=
  pollTick_failure_stops_polling c5State rfl true emptyBatchResult

/-! ## C9: frame property of the per-document poll update -/

/-- C9: a document whose filename is not found in the status snapshot is
returned unchanged by the poll update; a document that is found has only
its status and progress fields updated (id, file, analysis, error are
untouched), and its progress keeps the previous value when the snapshot
reports a missing or zero progress. -/
theorem updateDocFromStatus_frame (status : BatchStatusSnapshot) (d : DocumentFile) :
    (findStatusDoc status d = none → updateDocFromStatus status d = d) ∧
    (∀ sd, findStatusDoc status d = some sd →
      (updateDocFromStatus status d).id = d.id ∧
      (updateDocFromStatus status d).file = d.file ∧
      (updateDocFromStatus status d).analysis = d.analysis ∧
      (updateDocFromStatus status d).error = d.error ∧
      (updateDocFromStatus status d).status = sd.status ∧
      ((sd.progress = none ∨ sd.progress = some 0) →
        (updateDocFromStatus status d).progress = d.progress) ∧
      (∀ p, sd.progress = some p → p ≠ 0 → (updateDocFromStatus status d).progress = p)) := by
  cases hf : findStatusDoc status d with
  | none =>
    refine ⟨fun _ => ?_, fun sd hsd => Option.noConfusion hsd⟩
    unfold updateDocFromStatus
    rw [hf]
  | some sd0 =>
    refine ⟨fun hnone => Option.noConfusion hnone, fun sd hsd => ?_⟩
    injection hsd with he
    subst he
    have hu : updateDocFromStatus status d
        = { d with
            status := sd0.status
            progress :=
              match sd0.progress with
              | some p => if p == 0 then d.progress else p
              | none => d.progress } := by
      unfold updateDocFromStatus
      rw [hf]
    rw [hu]
    refine ⟨rfl, rfl, rfl, rfl, rfl, ?_, ?_⟩
    · rintro (hp | hp) <;> simp [hp]
    · intro p hp hpne
      rw [hp]
      simp [hpne]

/-- Witness for `updateDocFromStatus_frame`: the snapshot entry for
`a.pdf` updates `c9Doc`'s status to `analyzing` while its analysis field
is untouched. -/
theorem updateDocFromStatus_frame_witness :
    (updateDocFromStatus snapshotAnalyzing c9Doc).analysis = c9Doc.analysis ∧
    (updateDocFromStatus snapshotAnalyzing c9Doc).status = DocStatus.analyzing := by
  have h := (updateDocFromStatus_frame snapshotAnalyzing c9Doc).2
    { filename := "a.pdf", status := DocStatus.analyzing, progress := some 50 } (by decide)
  exact ⟨h.2.2.1, h.2.2.2.2.1⟩

/-! ## C10: the business context is capped at 500 characters -/

/-- C10: the textarea `onChange` stores `value.slice(0, 500)`, whose
length never exceeds 500; `getFinalPrompt` either returns the base
prompt unchanged or appends exactly the stored context after the
`Additional Context:` marker, so the final prompt exceeds the base
prompt by at most the 22-character marker plus 500 characters. -/
theorem userContext_capped (v selectedPromptId customPrompt : String) :
    (userContextOnChange v).length ≤ 500 ∧
    (getFinalPrompt selectedPromptId customPrompt (userContextOnChange v) =
        basePromptOf selectedPromptId customPrompt ∨
      getFinalPrompt selectedPromptId customPrompt (userContextOnChange v) =
        basePromptOf selectedPromptId customPrompt ++ "\n\nAdditional Context: "
          ++ userContextOnChange v) ∧
    (getFinalPrompt selectedPromptId customPrompt (userContextOnChange v)).length ≤
      (basePromptOf selectedPromptId customPrompt).length + 22 + 500 := by
  have hlen : (userContextOnChange v).length ≤ 500 := by
    rw [userContextOnChange, String.length_mk]
    exact List.length_take_le _ _
  have hcases :
      getFinalPrompt selectedPromptId customPrompt (userContextOnChange v) =
        basePromptOf selectedPromptId customPrompt ∨
      getFinalPrompt selectedPromptId customPrompt (userContextOnChange v) =
        basePromptOf selectedPromptId customPrompt ++ "\n\nAdditional Context: "
          ++ userContextOnChange v := by
    unfold getFinalPrompt
    cases h : jsTrim (userContextOnChange v) != ""
    · left
      simp [h]
    · right
      simp [h]
  refine ⟨hlen, hcases, ?_⟩
  rcases hcases with h | h <;> rw [h]
  · omega
  · rw [String.length_append, String.length_append]
    have : ("\n\nAdditional Context: " : String).length = 22 := rfl
    omega

end TayLaw
